import Mathlib

/-!
Verification of the TeamSite data-synchronization and validation layer.

The definitions below are a shallow embedding of the repository's JavaScript
sources:

* `src/backend/auth.js`          — token registry and `requireAuth`
* `src/backend/routes/teams.js`  — team CRUD handlers
* `src/backend/routes/players.js`— player CRUD handlers
* `src/backend/routes/config.js` — site-config handlers
* `src/backend/database.js`      — table shapes and constraints
* validation utilities (`ValidationUtils`) and the client cache
  (`DataManager`, `src/js/data-manager.js`)

Modelling conventions:
* JavaScript objects with possibly-missing fields are records with `Option`
  fields (`none` = the field is absent / `undefined` / SQL `NULL`).
* JavaScript truthiness of a string is `s ≠ ""`, of a number `n ≠ 0`.
* SQLite rows are records; snake_case columns are written in camelCase
  (`team_id` ↦ `teamId`, `image_path` ↦ `imagePath`, …).
* Timestamps (`CURRENT_TIMESTAMP`, `Date.now()`) are a `Nat` parameter `now`
  supplied by the caller; id generation is a `String` parameter.
* Request handlers are functions `Db → … → Resp × Db` returning the response
  envelope and the database after the request.
-/

namespace TeamSite

/-- A row of the `teams` table (database.js, `CREATE TABLE teams`). -/
structure TeamRow where
  id : String
  name : String
  color : String
  description : Option String
  createdAt : Nat
  updatedAt : Nat
deriving Repr, DecidableEq

/-- A row of the `players` table (database.js, `CREATE TABLE players`);
this is also the API/cache shape of a player (players.js maps the columns
to camelCase field names one-to-one). -/
structure PlayerRow where
  id : String
  name : String
  number : Int
  teamId : String
  position : String
  imagePath : Option String
  bio : Option String
  battingAverage : ℚ
  homeRuns : Int
  rbi : Int
  gamesPlayed : Int
  createdAt : Nat
  updatedAt : Nat
deriving Repr, DecidableEq

/-- The singleton `site_config` row (database.js, `CREATE TABLE site_config`).
The default data always inserts the row with id 1, and nothing deletes it,
so the model keeps it as an always-present record. -/
structure ConfigRow where
  title : String
  description : String
  primaryColor : String
  secondaryColor : String
  accentColor : String
  seasonYear : Int
  startDate : Option String
  endDate : Option String
  allStarDate : Option String
  updatedAt : Nat
deriving Repr, DecidableEq

/-- The authoritative store: the three tables of database.js. -/
structure Db where
  teams : List TeamRow
  players : List PlayerRow
  config : ConfigRow
deriving Repr, DecidableEq

/-- Response payloads (the `data` member of the success envelope). -/
inductive Payload where
  | team : TeamRow → Payload
  | player : PlayerRow → Payload
  | config : ConfigRow → Payload
deriving Repr, DecidableEq

/-- Response envelope: `{success, data}`, `{success, message}` (deletes), or
`{error, message, code}` with an HTTP status. -/
inductive Resp where
  | ok (status : Nat) (payload : Payload)
  | okMsg (status : Nat) (message : String)
  | err (status : Nat) (message : String) (code : String)
deriving Repr, DecidableEq

/-- JS truthiness of a possibly-absent string (`!x` is true for `undefined`
and for the empty string). -/
def jsTruthyStr : Option String → Bool
  | none => false
  | some s => s ≠ ""

/-- JS truthiness of a possibly-absent number (`!x` is true for `undefined`
and for `0`). -/
def jsTruthyInt : Option Int → Bool
  | none => false
  | some n => n ≠ 0

/-- `x || null` on an optional string: an empty string collapses to null. -/
def jsOrNull : Option String → Option String
  | some "" => none
  | x => x

/-- `x || d` on an optional string: absent or empty falls back to `d`. -/
def jsOrDefault (x : Option String) (d : String) : String :=
  match x with
  | none => d
  | some "" => d
  | some s => s

/-- The whitespace characters JS string trimming removes (the ones that
occur in practice: space, tab, newline, carriage return). -/
def jsWhitespace (c : Char) : Bool :=
  c = ' ' ∨ c = '\t' ∨ c = '\n' ∨ c = '\r'

/-- JS string trimming (`name.trim()` in the validators): drop whitespace
from both ends. -/
def jsTrim (s : String) : String :=
  String.mk (((s.toList.dropWhile jsWhitespace).reverse.dropWhile jsWhitespace).reverse)

/-- Lexicographic order on character lists. -/
def charListLe : List Char → List Char → Bool
  | [], _ => true
  | _ :: _, [] => false
  | a :: as, b :: bs => if a = b then charListLe as bs else decide (a < b)

/-- Chronological order of two ISO `yyyy-mm-dd` date strings, which is what
JS `new Date(a) <= new Date(b)` computes on that shape (on such strings the
date order and the lexicographic order coincide). -/
def dateLe (a b : String) : Bool :=
  charListLe a.toList b.toList

-- ===== Session/Token Authority (auth.js) =====

/-- Registry entry of `activeTokens`: `{issuedAt, expiresAt}`. -/
structure TokenMeta where
  issuedAt : Nat
  expiresAt : Nat
deriving Repr, DecidableEq

/-- `requireAuth` (auth.js lines 26-37): parses the `Authorization` header,
rejects with 401 UNAUTHORIZED when the token is missing, unknown or expired
(evicting an expired token), and otherwise lets the request through.
Returns the optional rejection response and the registry afterwards. -/
def requireAuth (tokens : List (String × TokenMeta)) (header : Option String)
    (now : Nat) : Option Resp × List (String × TokenMeta) :=
  let h := header.getD ""
  let token? : Option String :=
    if h.startsWith "Bearer " ∧ h.drop 7 ≠ "" then some (h.drop 7) else none
  match token? with
  | none => (some (.err 401 "Missing token" "UNAUTHORIZED"), tokens)
  | some t =>
    match tokens.lookup t with
    | none => (some (.err 401 "Invalid token" "UNAUTHORIZED"), tokens)
    | some meta =>
      if now > meta.expiresAt then
        (some (.err 401 "Token expired" "UNAUTHORIZED"),
         tokens.filter (fun kv => kv.1 ≠ t))
      else
        (none, tokens)

-- ===== Teams routes (routes/teams.js) =====

/-- Request body of `POST /teams` and `PUT /teams/:id`. -/
structure TeamBody where
  name : Option String
  color : Option String
  description : Option String
deriving Repr, DecidableEq

/-- `router.post('/')` in teams.js: required-name check, duplicate-name
check (exact match, as in `WHERE name = ?`), then insert with defaults. -/
def postTeamsHandler (db : Db) (body : TeamBody) (newId : String) (now : Nat) :
    Resp × Db :=
  if ¬ jsTruthyStr body.name then
    (.err 400 "Team name is required" "VALIDATION_ERROR", db)
  else
    let n := body.name.getD ""
    if (db.teams.find? (fun t => t.name == n)).isSome then
      (.err 400 "Team name already exists" "DUPLICATE_NAME", db)
    else
      let t : TeamRow :=
        { id := newId, name := n, color := jsOrDefault body.color "#3b82f6",
          description := jsOrNull body.description,
          createdAt := now, updatedAt := now }
      (.ok 201 (.team t), { db with teams := db.teams ++ [t] })

/-- `router.delete('/:id')` in teams.js: 404 when absent; when players
still reference the team, reject with TEAM_HAS_PLAYERS carrying the count;
otherwise delete the team. -/
def deleteTeamsHandler (db : Db) (tid : String) : Resp × Db :=
  match db.teams.find? (fun t => t.id == tid) with
  | none => (.err 404 "Team not found" "TEAM_NOT_FOUND", db)
  | some _ =>
    let count := (db.players.filter (fun p => p.teamId == tid)).length
    if count > 0 then
      (.err 400
        ("Cannot delete team with " ++ toString count ++ " players. Move or delete players first.")
        "TEAM_HAS_PLAYERS", db)
    else
      (.okMsg 200 "Team deleted successfully",
       { db with teams := db.teams.filter (fun t => t.id != tid) })

-- ===== Players routes (routes/players.js) =====

/-- The nested `stats` object of a player request body. -/
structure StatsBody where
  battingAverage : Option ℚ
  homeRuns : Option Int
  rbi : Option Int
  gamesPlayed : Option Int
deriving Repr, DecidableEq

/-- Request body of `POST /players` and `PUT /players/:id`. -/
structure PlayerBody where
  name : Option String
  number : Option Int
  teamId : Option String
  position : Option String
  image : Option String
  bio : Option String
  stats : Option StatsBody
deriving Repr, DecidableEq

/-- `router.post('/')` in players.js: required-field truthiness check,
team-existence check, per-team duplicate-number check, then insert. -/
def postPlayersHandler (db : Db) (body : PlayerBody) (newId : String)
    (now : Nat) : Resp × Db :=
  if ¬ (jsTruthyStr body.name ∧ jsTruthyInt body.number ∧
        jsTruthyStr body.teamId ∧ jsTruthyStr body.position) then
    (.err 400 "Missing required fields: name, number, teamId, position"
      "VALIDATION_ERROR", db)
  else
    let nm := body.name.getD ""
    let num := body.number.getD 0
    let tid := body.teamId.getD ""
    let pos := body.position.getD ""
    if (db.teams.find? (fun t => t.id == tid)).isNone then
      (.err 400 "Team not found" "TEAM_NOT_FOUND", db)
    else if (db.players.find? (fun p => p.teamId == tid && p.number == num)).isSome then
      (.err 400 ("Player number " ++ toString num ++ " already exists in this team")
        "DUPLICATE_NUMBER", db)
    else
      let p : PlayerRow :=
        { id := newId, name := nm, number := num, teamId := tid, position := pos,
          imagePath := jsOrNull body.image, bio := jsOrNull body.bio,
          battingAverage := (body.stats.bind (fun s => s.battingAverage)).getD 0,
          homeRuns := (body.stats.bind (fun s => s.homeRuns)).getD 0,
          rbi := (body.stats.bind (fun s => s.rbi)).getD 0,
          gamesPlayed := (body.stats.bind (fun s => s.gamesPlayed)).getD 0,
          createdAt := now, updatedAt := now }
      (.ok 201 (.player p), { db with players := db.players ++ [p] })

/-- The merged row written by the `COALESCE` update of `PUT /players/:id`:
a body field that is present replaces the column, an absent one keeps it;
`updated_at` is set to the write time. -/
def mergePlayerRow (existing : PlayerRow) (body : PlayerBody) (now : Nat) :
    PlayerRow :=
  { id := existing.id,
    name := body.name.getD existing.name,
    number := body.number.getD existing.number,
    teamId := body.teamId.getD existing.teamId,
    position := body.position.getD existing.position,
    imagePath := (body.image).orElse (fun _ => existing.imagePath),
    bio := (body.bio).orElse (fun _ => existing.bio),
    battingAverage :=
      (body.stats.bind (fun s => s.battingAverage)).getD existing.battingAverage,
    homeRuns := (body.stats.bind (fun s => s.homeRuns)).getD existing.homeRuns,
    rbi := (body.stats.bind (fun s => s.rbi)).getD existing.rbi,
    gamesPlayed :=
      (body.stats.bind (fun s => s.gamesPlayed)).getD existing.gamesPlayed,
    createdAt := existing.createdAt,
    updatedAt := now }

/-- The storage layer's `UNIQUE(team_id, number)` constraint (database.js):
an `UPDATE` whose resulting row collides with a different row fails, and a
failed statement changes nothing. -/
def dbUpdatePlayer (db : Db) (pid : String) (merged : PlayerRow) :
    Except String Db :=
  if db.players.any
      (fun q => q.id != pid && q.teamId == merged.teamId && q.number == merged.number) then
    .error "SQLITE_CONSTRAINT: UNIQUE constraint failed: players.team_id, players.number"
  else
    .ok { db with players := db.players.map (fun q => if q.id == pid then merged else q) }

/-- `router.put('/:id')` in players.js: 404 when absent; the duplicate-number
check runs only when the body carries a truthy number different from the
current one; then the COALESCE merge runs against the storage layer, whose
constraint failure surfaces as a 500 with code PLAYER_UPDATE_ERROR. -/
def putPlayersHandler (db : Db) (pid : String) (body : PlayerBody) (now : Nat) :
    Resp × Db :=
  match db.players.find? (fun p => p.id == pid) with
  | none => (.err 404 "Player not found" "PLAYER_NOT_FOUND", db)
  | some existing =>
    let dup : Bool :=
      match body.number with
      | some num =>
        if num ≠ 0 ∧ num ≠ existing.number then
          (db.players.find?
            (fun q => q.teamId == (body.teamId.getD existing.teamId) &&
                      q.number == num && q.id != pid)).isSome
        else false
      | none => false
    if dup then
      let num := body.number.getD 0
      (.err 400 ("Player number " ++ toString num ++ " already exists in this team")
        "DUPLICATE_NUMBER", db)
    else
      let merged := mergePlayerRow existing body now
      match dbUpdatePlayer db pid merged with
      | .error e => (.err 500 e "PLAYER_UPDATE_ERROR", db)
      | .ok db2 => (.ok 200 (.player merged), db2)

-- ===== Config routes (routes/config.js) =====

/-- The nested `season` object of a config request body. -/
structure SeasonBody where
  year : Option Int
  startDate : Option String
  endDate : Option String
  allStarWeekend : Option String
deriving Repr, DecidableEq

/-- The nested `theme` object of a config request body. -/
structure ThemeBody where
  primary : Option String
  secondary : Option String
  accent : Option String
deriving Repr, DecidableEq

/-- Request body of `PUT /config`. -/
structure ConfigBody where
  title : Option String
  description : Option String
  theme : Option ThemeBody
  season : Option SeasonBody
deriving Repr, DecidableEq

/-- `router.put('/')` in config.js: a plain COALESCE merge over the singleton
row — the handler performs no validation of the incoming values. -/
def putConfigHandler (db : Db) (body : ConfigBody) (now : Nat) : Resp × Db :=
  let c := db.config
  let c2 : ConfigRow :=
    { title := body.title.getD c.title,
      description := body.description.getD c.description,
      primaryColor := (body.theme.bind (fun t => t.primary)).getD c.primaryColor,
      secondaryColor := (body.theme.bind (fun t => t.secondary)).getD c.secondaryColor,
      accentColor := (body.theme.bind (fun t => t.accent)).getD c.accentColor,
      seasonYear := (body.season.bind (fun s => s.year)).getD c.seasonYear,
      startDate := (body.season.bind (fun s => s.startDate)).orElse (fun _ => c.startDate),
      endDate := (body.season.bind (fun s => s.endDate)).orElse (fun _ => c.endDate),
      allStarDate :=
        (body.season.bind (fun s => s.allStarWeekend)).orElse (fun _ => c.allStarDate),
      updatedAt := now }
  (.ok 200 (.config c2), { db with config := c2 })

-- ===== Route mounting (server block, end of data-manager.js file) =====
-- The server mounts `/api/players` and `/api/config` whose mutating handlers
-- wrap `requireAuth`, but `/api/teams` is mounted bare and teams.js never
-- references `requireAuth`, so team mutations run with no token check.

/-- `POST /api/teams` as mounted: the handler runs directly — no
`requireAuth` appears in teams.js or in the mounting. -/
def postTeamsEndpoint (tokens : List (String × TokenMeta))
    (header : Option String) (now : Nat) (db : Db) (body : TeamBody)
    (newId : String) : Resp × Db :=
  postTeamsHandler db body newId now

/-- `DELETE /api/teams/:id` as mounted: likewise unauthenticated. -/
def deleteTeamsEndpoint (tokens : List (String × TokenMeta))
    (header : Option String) (now : Nat) (db : Db) (tid : String) : Resp × Db :=
  deleteTeamsHandler db tid

/-- `POST /api/players` as mounted: `requireAuth` runs first. -/
def postPlayersEndpoint (tokens : List (String × TokenMeta))
    (header : Option String) (now : Nat) (db : Db) (body : PlayerBody)
    (newId : String) : Resp × Db :=
  match (requireAuth tokens header now).1 with
  | some r => (r, db)
  | none => postPlayersHandler db body newId now

/-- `PUT /api/config` as mounted: `requireAuth` runs first. -/
def putConfigEndpoint (tokens : List (String × TokenMeta))
    (header : Option String) (now : Nat) (db : Db) (body : ConfigBody) :
    Resp × Db :=
  match (requireAuth tokens header now).1 with
  | some r => (r, db)
  | none => putConfigHandler db body now

-- ===== Concrete default data (database.js, insertDefaultData) =====

/-- The default `site_config` row. -/
def defaultConfigRow : ConfigRow :=
  { title := "Little League Champions",
    description := "The future stars of baseball",
    primaryColor := "#3b82f6", secondaryColor := "#10b981",
    accentColor := "#f59e0b", seasonYear := 2024,
    startDate := none, endDate := none, allStarDate := none, updatedAt := 0 }

/-- The default `tigers` team row. -/
def tigersRow : TeamRow :=
  { id := "tigers", name := "Tigers", color := "#f59e0b",
    description := some "The mighty Tigers team", createdAt := 0, updatedAt := 0 }

/-- Default player Jason Miller, number 12 on team tigers. -/
def jasonRow : PlayerRow :=
  { id := "player_1", name := "Jason Miller", number := 12, teamId := "tigers",
    position := "Pitcher", imagePath := some "http://static.photos/sport/640x360/1",
    bio := some "Jason is our star pitcher with a powerful fastball.",
    battingAverage := ⟨57, 200, by decide, by decide⟩, homeRuns := 3, rbi := 15,
    gamesPlayed := 12, createdAt := 0, updatedAt := 0 }

/-- The database right after `insertDefaultData` (restricted to one player). -/
def defaultDb : Db :=
  { teams := [tigersRow], players := [jasonRow], config := defaultConfigRow }

-- ===== Validation Engine =====
-- ValidationUtils (validation utility file) and DataManager.validatePlayer
-- (data-manager.js). Candidates mirror loosely-shaped JS objects: every
-- field is optional.

/-- Structured validation result `{valid, errors, warnings}`. -/
structure VResult where
  valid : Bool
  errors : List String
  warnings : List String
deriving Repr, DecidableEq

/-- A candidate player value as passed to the validators. -/
structure PlayerCand where
  id : Option String
  name : Option String
  number : Option Int
  teamId : Option String
  position : Option String
  image : Option String
  bio : Option String
  stats : Option StatsBody
  battingAverage : Option ℚ
  homeRuns : Option Int
  rbi : Option Int
  gamesPlayed : Option Int
deriving Repr, DecidableEq

/-- A candidate team value as passed to the validators. -/
structure TeamCand where
  id : Option String
  name : Option String
  color : Option String
  description : Option String
deriving Repr, DecidableEq

/-- A JS runtime error escaping a validator (the engine is specified never
to throw, so any value here is a violation of that contract). -/
inductive JsErr where
  | typeError (message : String)
deriving Repr, DecidableEq

/-- `ValidationUtils.isValidColor`: the strict `#` + 3- or 6-hex-digit
pattern. -/
def vuIsValidColor (s : String) : Bool :=
  s.startsWith "#" &&
    (let r := (s.drop 1).toList
     (r.length == 6 || r.length == 3) &&
       r.all (fun c => c.isDigit ||
         (decide ('a' ≤ c) && decide (c ≤ 'f')) ||
         (decide ('A' ≤ c) && decide (c ≤ 'F'))))

/-- `ValidationUtils.isValidDate`, modelled for ISO `yyyy-mm-dd` strings
(the only shape the spec and the stored dates use): ten characters,
digits with dashes at positions 4 and 7. JS `new Date` accepts further
formats; on this shape the two agree. -/
def vuIsValidDate (s : String) : Bool :=
  let cs := s.toList
  cs.length == 10 &&
    (List.range 10).all (fun i =>
      let c := cs.getD i ' '
      if i == 4 || i == 7 then c == '-' else c.isDigit)

/-- `ValidationUtils.isValidImageUrl`, modelled on http/https URLs whose
path ends in an image extension (JS parses with `new URL`; on plain
absolute URLs without query strings the two agree). -/
def vuIsValidImageUrl (u : String) : Bool :=
  (u.startsWith "http://" || u.startsWith "https://") &&
    ([".jpg", ".jpeg", ".png", ".gif", ".webp"].any
      (fun e => (u.toLower).endsWith e))

/-- `ValidationUtils.validateStats`. -/
def vuValidateStats (stats : StatsBody) : List String :=
  (match stats.battingAverage with
   | some b => if b < 0 ∨ b > 1 then ["Batting average must be between 0 and 1"] else []
   | none => []) ++
  (match stats.homeRuns with
   | some h => if h < 0 then ["Home runs must be a non-negative integer"] else []
   | none => []) ++
  (match stats.rbi with
   | some r => if r < 0 then ["RBI must be a non-negative integer"] else []
   | none => []) ++
  (match stats.gamesPlayed with
   | some g => if g < 0 then ["Games played must be a non-negative integer"] else []
   | none => [])

/-- `ValidationUtils.validatePlayer(player, existingPlayers)`: name length,
integer number in 1..99, team and position presence, and a duplicate-number
search over ALL peer players regardless of team. With `Option`-shaped
fields the function is total. -/
def vuValidatePlayer (player : PlayerCand) (existingPlayers : List PlayerRow) :
    VResult :=
  let nameErrs :=
    if ¬ jsTruthyStr player.name ∨ jsTrim (player.name.getD "") = "" then
      ["Player name is required"]
    else if (jsTrim (player.name.getD "")).length < 2 then
      ["Player name must be at least 2 characters"]
    else if (jsTrim (player.name.getD "")).length > 50 then
      ["Player name must be less than 50 characters"]
    else []
  let numberErrs :=
    match player.number with
    | none => ["Player number is required"]
    | some n =>
      if n = 0 then ["Player number is required"]
      else if n < 1 ∨ n > 99 then ["Player number must be between 1 and 99"]
      else []
  let teamErrs := if ¬ jsTruthyStr player.teamId then ["Team selection is required"] else []
  let posErrs :=
    if ¬ jsTruthyStr player.position ∨ jsTrim (player.position.getD "") = "" then
      ["Player position is required"]
    else if (jsTrim (player.position.getD "")).length > 100 then
      ["Player position must be 100 characters or less"]
    else []
  let dupErrs :=
    match player.number with
    | none => []
    | some n =>
      match existingPlayers.find?
        (fun p => p.number == n &&
          (match player.id with | none => true | some s => p.id != s)) with
      | some dup =>
        let dname := dup.name
        ["Player number " ++ toString n ++ " is already taken by " ++ dname]
      | none => []
  let warnings :=
    match player.image with
    | some u => if u ≠ "" ∧ ¬ vuIsValidImageUrl u then ["Image URL may not be valid"] else []
    | none => []
  let statsErrs :=
    match player.stats with
    | some s => vuValidateStats s
    | none => []
  let errors := nameErrs ++ numberErrs ++ teamErrs ++ posErrs ++ dupErrs ++ statsErrs
  { valid := errors.isEmpty, errors := errors, warnings := warnings }

/-- `ValidationUtils.validateTeam(team, existingTeams)`. The duplicate-name
search evaluates `team.name.toLowerCase()` inside the `find` callback with
no guard, so a candidate with a missing name throws a TypeError as soon as
`existingTeams` is non-empty — modelled with `Except`. -/
def vuValidateTeam (team : TeamCand) (existingTeams : List TeamRow) :
    Except JsErr VResult :=
  let nameErrs :=
    if ¬ jsTruthyStr team.name ∨ jsTrim (team.name.getD "") = "" then
      ["Team name is required"]
    else if (jsTrim (team.name.getD "")).length < 2 then
      ["Team name must be at least 2 characters"]
    else if (jsTrim (team.name.getD "")).length > 30 then
      ["Team name must be less than 30 characters"]
    else []
  let dupRes : Except JsErr (List String) :=
    match existingTeams with
    | [] => .ok []
    | _ =>
      match team.name with
      | none =>
        .error (.typeError
          "Cannot read properties of undefined (reading toLowerCase)")
      | some n =>
        match existingTeams.find?
          (fun t => t.name.toLower == n.toLower &&
            (match team.id with | none => true | some s => t.id != s)) with
        | some _ => .ok ["Team name \x22" ++ n ++ "\x22 already exists"]
        | none => .ok []
  match dupRes with
  | .error e => .error e
  | .ok dupErrs =>
    let colorErrs :=
      match team.color with
      | some c => if c ≠ "" ∧ ¬ vuIsValidColor c then ["Team color must be a valid hex color"] else []
      | none => []
    let errors := nameErrs ++ dupErrs ++ colorErrs
    .ok { valid := errors.isEmpty, errors := errors, warnings := [] }

/-- `ValidationUtils.validateTheme`. -/
def vuValidateTheme (theme : ThemeBody) : List String :=
  let one := fun (label : String) (v : Option String) =>
    match v with
    | none => [label ++ " color is required"]
    | some "" => [label ++ " color is required"]
    | some c => if ¬ vuIsValidColor c then [label ++ " color must be a valid hex color"] else []
  one "primary" theme.primary ++ one "secondary" theme.secondary ++
    one "accent" theme.accent

/-- `ValidationUtils.validateSeason`: year ≥ 2020, both dates well-formed,
and `new Date(start) >= new Date(end)` flags the ordering violation. For
valid ISO `yyyy-mm-dd` strings the JS date comparison coincides with
lexicographic string order; when either date is invalid the JS comparison
on NaN is false, so no ordering error is pushed — both reflected below. -/
def vuValidateSeason (season : SeasonBody) : List String :=
  let yearErrs :=
    match season.year with
    | none => ["Season year must be 2020 or later"]
    | some y => if y = 0 ∨ y < 2020 then ["Season year must be 2020 or later"] else []
  let startErrs :=
    match season.startDate with
    | some s => if s ≠ "" ∧ ¬ vuIsValidDate s then ["Start date must be a valid date"] else []
    | none => []
  let endErrs :=
    match season.endDate with
    | some e => if e ≠ "" ∧ ¬ vuIsValidDate e then ["End date must be a valid date"] else []
    | none => []
  let orderErrs :=
    match season.startDate, season.endDate with
    | some s, some e =>
      if s ≠ "" ∧ e ≠ "" ∧ vuIsValidDate s ∧ vuIsValidDate e ∧ dateLe e s = true then
        ["End date must be after start date"]
      else []
    | _, _ => []
  yearErrs ++ startErrs ++ endErrs ++ orderErrs

/-- `ValidationUtils.validateSiteConfig`. -/
def vuValidateSiteConfig (title : Option String) (theme : Option ThemeBody)
    (season : Option SeasonBody) : VResult :=
  let titleErrs :=
    if ¬ jsTruthyStr title ∨ jsTrim (title.getD "") = "" then
      ["Site title is required"]
    else []
  let themeErrs := match theme with | some t => vuValidateTheme t | none => []
  let seasonErrs := match season with | some s => vuValidateSeason s | none => []
  let errors := titleErrs ++ themeErrs ++ seasonErrs
  { valid := errors.isEmpty, errors := errors, warnings := [] }

/-- `DataManager.validatePlayer(player)` (data-manager.js lines 451-484):
the client cache's own rule set — presence checks, number range 1..99,
team existence in the cached teams, position length, and a duplicate-number
search over ALL cached players regardless of team. -/
def dmValidatePlayer (teams : List TeamRow) (players : List PlayerRow)
    (player : PlayerCand) : VResult :=
  let nameErrs :=
    if ¬ jsTruthyStr player.name ∨ jsTrim (player.name.getD "") = "" then
      ["Name is required"]
    else []
  let numberErrs :=
    match player.number with
    | none => ["Number must be between 1 and 99"]
    | some n => if n = 0 ∨ n < 1 ∨ n > 99 then ["Number must be between 1 and 99"] else []
  let teamErrs :=
    if ¬ jsTruthyStr player.teamId then ["Team is required"]
    else if (teams.find? (fun t => t.id == player.teamId.getD "")).isNone then
      ["Team does not exist"]
    else []
  let posErrs :=
    if ¬ jsTruthyStr player.position ∨ jsTrim (player.position.getD "") = "" then
      ["Position is required"]
    else if (jsTrim (player.position.getD "")).length > 100 then
      ["Position must be 100 characters or less"]
    else []
  let dupErrs :=
    match player.number with
    | none => []
    | some n =>
      if n ≠ 0 ∧ players.any
          (fun p => p.number == n &&
            (match player.id with | none => true | some s => p.id != s)) then
        ["Player number already exists"]
      else []
  let errors := nameErrs ++ numberErrs ++ teamErrs ++ posErrs ++ dupErrs
  { valid := errors.isEmpty, errors := errors, warnings := [] }

-- ===== Client Cache (DataManager, data-manager.js) =====

/-- The observable state of a `DataManager` instance: `this.data`, the
loading/retry bookkeeping, the names of notifications emitted so far
(`notifyListeners`), and the number of `setTimeout(() => initialize())`
retries scheduled so far. -/
structure DMState where
  siteConfig : Option ConfigRow
  teams : List TeamRow
  players : List PlayerRow
  isLoading : Bool
  retryCount : Nat
  maxRetries : Nat
  events : List String
  scheduled : Nat
deriving Repr, DecidableEq

/-- The state of a freshly constructed `DataManager`. -/
def dmInit : DMState :=
  { siteConfig := none, teams := [], players := [], isLoading := false,
    retryCount := 0, maxRetries := 3, events := [], scheduled := 0 }

/-- One round of network responses for the three bulk loads; `none` is a
failed fetch (`apiCall` throwing). -/
structure Network where
  configResp : Option ConfigRow
  teamsResp : Option (List TeamRow)
  playersResp : Option (List PlayerRow)
deriving Repr, DecidableEq

/-- `getDefaultSiteConfig()` (data-manager.js lines 263-275). -/
def dmDefaultSiteConfig : ConfigRow :=
  { title := "Little League Champions",
    description := "The future stars of baseball in our interactive 3D showcase",
    primaryColor := "#3b82f6", secondaryColor := "#10b981",
    accentColor := "#f59e0b", seasonYear := 2024,
    startDate := some "2024-04-06", endDate := some "2024-06-15",
    allStarDate := some "2024-05-18", updatedAt := 0 }

/-- `loadSiteConfig()`: its own try/catch substitutes the default config on
failure, so the returned computation never propagates an error. -/
def loadSiteConfig (net : Network) (st : DMState) : Except String DMState :=
  match net.configResp with
  | some c => .ok { st with siteConfig := some c }
  | none => .ok { st with siteConfig := some dmDefaultSiteConfig }

/-- `loadTeams()`: substitutes the empty list on failure. -/
def loadTeams (net : Network) (st : DMState) : Except String DMState :=
  match net.teamsResp with
  | some ts => .ok { st with teams := ts }
  | none => .ok { st with teams := [] }

/-- `loadPlayers()`: substitutes the empty list on failure. -/
def loadPlayers (net : Network) (st : DMState) : Except String DMState :=
  match net.playersResp with
  | some ps => .ok { st with players := ps }
  | none => .ok { st with players := [] }

/-- `handleApiError()` (data-manager.js lines 194-203): below the retry
budget, schedule `initialize()` again after `1000 * retryCount` ms;
at the budget, emit the `apiError` notification. -/
def handleApiError (st : DMState) : DMState :=
  if st.retryCount < st.maxRetries then
    { st with retryCount := st.retryCount + 1, scheduled := st.scheduled + 1 }
  else
    { st with events := st.events ++ ["apiError"] }

/-- The awaited `Promise.all` body of `initialize()`: the three loads (they
write disjoint fields, so running them in sequence is equivalent to
`Promise.all`); an error value would propagate to the catch. -/
def loadSeq (net : Network) (st : DMState) : Except String DMState := do
  let a ← loadSiteConfig net st
  let b ← loadTeams net a
  loadPlayers net b

/-- `initialize()` (data-manager.js lines 136-153): guarded by `isLoading`;
awaits the three loads, resets `retryCount` on success, and routes a thrown
error to `handleApiError`; `finally` clears `isLoading`. -/
def runInit (net : Network) (st : DMState) : DMState :=
  if st.isLoading then st
  else
    let st1 := { st with isLoading := true }
    match loadSeq net st1 with
    | .ok st2 => { st2 with retryCount := 0, isLoading := false }
    | .error _ => { handleApiError st1 with isLoading := false }

/-- Run the `setTimeout` retries scheduled by `handleApiError` until none
remain (bounded by `fuel`): each pending timer fires one `initialize()`. -/
def drain (net : Network) : Nat → DMState → DMState
  | 0, st => st
  | fuel + 1, st =>
    if st.scheduled = 0 then st
    else drain net fuel (runInit net { st with scheduled := st.scheduled - 1 })

/-- The network on which every fetch fails. -/
def allFailNet : Network :=
  { configResp := none, teamsResp := none, playersResp := none }

-- ===== Client write path: updatePlayer (data-manager.js lines 383-422) =====

/-- The slice of cache state the write path reads and writes. -/
structure Cache where
  teams : List TeamRow
  players : List PlayerRow
deriving Repr, DecidableEq

/-- The `updates` object passed to `updatePlayer(id, updates)`: a JS object
literal whose absent keys are `none`. -/
structure UpdateCand where
  name : Option String
  number : Option Int
  teamId : Option String
  position : Option String
  image : Option String
  bio : Option String
  battingAverage : Option ℚ
  homeRuns : Option Int
  rbi : Option Int
  gamesPlayed : Option Int
deriving Repr, DecidableEq

/-- The update object `{bio: x}` and nothing else. -/
def bioUpd (x : String) : UpdateCand :=
  { name := none, number := none, teamId := none, position := none,
    image := none, bio := some x, battingAverage := none, homeRuns := none,
    rbi := none, gamesPlayed := none }

/-- The JS spread `{...cachedPlayer, ...updates}` as a validation candidate:
keys present in `updates` override the cached row. -/
def mergeCand (p : PlayerRow) (u : UpdateCand) : PlayerCand :=
  { id := some p.id,
    name := some (u.name.getD p.name),
    number := some (u.number.getD p.number),
    teamId := some (u.teamId.getD p.teamId),
    position := some (u.position.getD p.position),
    image := u.image.orElse (fun _ => p.imagePath),
    bio := u.bio.orElse (fun _ => p.bio),
    stats := none,
    battingAverage := some (u.battingAverage.getD p.battingAverage),
    homeRuns := some (u.homeRuns.getD p.homeRuns),
    rbi := some (u.rbi.getD p.rbi),
    gamesPlayed := some (u.gamesPlayed.getD p.gamesPlayed) }

/-- The HTTP status of a response, for the `API Error` message thrown by
`apiCall` on a non-ok response. -/
def respStatus : Resp → Nat
  | .ok s _ => s
  | .okMsg s _ => s
  | .err s _ _ => s

/-- `DataManager.updatePlayer(id, updates)` composed with the server route:
find the cached index, client-validate the merged object (fail fast —
no network call on invalid input), send the partial payload to
`PUT /players/:id`, and on success splice the server echo into the cached
array at that index. Errors are surfaced as `Except.error` (JS `throw`). -/
def dmUpdatePlayer (dm : Cache) (db : Db) (pid : String) (u : UpdateCand)
    (now : Nat) : Except String (Cache × Db × PlayerRow) :=
  match dm.players.enum.find? (fun e => e.2.id == pid) with
  | none => .error ("Player with ID " ++ pid ++ " not found")
  | some (i, cached) =>
    let v := dmValidatePlayer dm.teams dm.players (mergeCand cached u)
    if v.valid then
      let payload : PlayerBody :=
        { name := u.name, number := u.number, teamId := u.teamId,
          position := u.position, image := u.image, bio := u.bio,
          stats := some
            { battingAverage := u.battingAverage, homeRuns := u.homeRuns,
              rbi := u.rbi, gamesPlayed := u.gamesPlayed } }
      match putPlayersHandler db pid payload now with
      | (.ok _ (.player echo), db2) =>
        .ok ({ dm with players := dm.players.set i echo }, db2, echo)
      | (r, _) =>
        let code := respStatus r
        .error ("API Error: " ++ toString code)
    else
      let msg := String.intercalate ", " v.errors
      .error ("Player validation failed: " ++ msg)

/-- `DataManager.getPlayer(id)` (the read after the round trip). -/
def dmGetPlayer (dm : Cache) (pid : String) : Option PlayerRow :=
  dm.players.find? (fun p => p.id == pid)

-- ===== Object identity model for the cache read operations =====
-- JS objects live on a heap and variables hold references, so whether a
-- getter copies or aliases is observable through mutation. Entity objects
-- and arrays are heap cells addressed by `Nat`; a caller "mutating the
-- returned value" is a heap write at an address it received.

/-- A heap address (a JS object reference). -/
abbrev Addr := Nat

/-- A heap cell: a team object, player object, config object, or an array
of references. -/
inductive Obj where
  | team : TeamRow → Obj
  | player : PlayerRow → Obj
  | config : ConfigRow → Obj
  | arr : List Addr → Obj
deriving Repr, DecidableEq

/-- The JS heap: an allocation counter and the allocated cells. -/
structure Heap where
  next : Addr
  mem : List (Addr × Obj)
deriving Repr, DecidableEq

/-- Lookup of the first cell bound to an address. -/
def readCells : List (Addr × Obj) → Addr → Option Obj
  | [], _ => none
  | (k, v) :: es, a => if a = k then some v else readCells es a

/-- Dereference an address. -/
def Heap.read (h : Heap) (a : Addr) : Option Obj :=
  readCells h.mem a

/-- Mutate the cell at an (allocated) address in place. -/
def Heap.write (h : Heap) (a : Addr) (o : Obj) : Heap :=
  { h with mem := h.mem.map (fun e => if e.1 = a then (a, o) else e) }

/-- Allocate a fresh cell, returning its address. -/
def Heap.alloc (h : Heap) (o : Obj) : Heap × Addr :=
  ({ next := h.next + 1, mem := (h.next, o) :: h.mem }, h.next)

/-- `this.data` of a DataManager: references to the teams array, the players
array, and the siteConfig object. -/
structure DMRefs where
  teamsA : Addr
  playersA : Addr
  configA : Addr
deriving Repr, DecidableEq

/-- The addresses stored in the internal teams array. -/
def teamElems (h : Heap) (dm : DMRefs) : List Addr :=
  match h.read dm.teamsA with
  | some (.arr l) => l
  | _ => []

/-- The addresses stored in the internal players array. -/
def playerElems (h : Heap) (dm : DMRefs) : List Addr :=
  match h.read dm.playersA with
  | some (.arr l) => l
  | _ => []

/-- What a reader of the cache observes: the team objects, the player
objects, and the config object reached from `this.data`. -/
def obsAll (h : Heap) (dm : DMRefs) :
    List (Option Obj) × List (Option Obj) × Option Obj :=
  ((teamElems h dm).map h.read, (playerElems h dm).map h.read,
   h.read dm.configA)

/-- Well-formedness of a cache heap: every allocated address is below the
allocation counter, `this.data.teams` and `this.data.players` are arrays
whose elements are team/player objects, and `this.data.siteConfig` is a
config object. -/
def wfDM (h : Heap) (dm : DMRefs) : Bool :=
  h.mem.all (fun e => e.1 < h.next) &&
  (match h.read dm.teamsA with
   | some (.arr l) =>
     l.all (fun a => match h.read a with | some (.team _) => true | _ => false)
   | _ => false) &&
  (match h.read dm.playersA with
   | some (.arr l) =>
     l.all (fun a => match h.read a with | some (.player _) => true | _ => false)
   | _ => false) &&
  (match h.read dm.configA with
   | some (.config _) => true
   | _ => false)

/-- `getPlayers()` — `[...this.data.players]`: allocates a NEW array whose
elements are the SAME player references. -/
def getPlayersRef (h : Heap) (dm : DMRefs) : Heap × Addr :=
  h.alloc (.arr (playerElems h dm))

/-- `getPlayersByTeam(teamId)` — `filter` also returns a new array of the
same references. -/
def getPlayersByTeamRef (h : Heap) (dm : DMRefs) (tid : String) : Heap × Addr :=
  h.alloc (.arr ((playerElems h dm).filter (fun a =>
    match h.read a with
    | some (.player p) => p.teamId == tid
    | _ => false)))

/-- `getTeam(id)` — `this.data.teams.find(...)`: returns the internal team
object reference itself, with no copy. -/
def getTeamRef (h : Heap) (dm : DMRefs) (tid : String) : Option Addr :=
  (teamElems h dm).find? (fun a =>
    match h.read a with
    | some (.team t) => t.id == tid
    | _ => false)

/-- `getSiteConfig()` — `{...this.data.siteConfig}`: allocates a new object
carrying a copy of the config fields. -/
def getSiteConfigRef (h : Heap) (dm : DMRefs) : Heap × Addr :=
  match h.read dm.configA with
  | some (.config c) => h.alloc (.config c)
  | _ => h.alloc (.config defaultConfigRow)

/-- The element addresses of the array object at `a`. -/
def arrElemsAt (h : Heap) (a : Addr) : List Addr :=
  match h.read a with
  | some (.arr l) => l
  | _ => []

-- ===== Fixtures and claim formalizations =====

/-- Whether `POST /players` answers with the success envelope (the id and
timestamp parameters do not influence acceptance). -/
def serverAccepts (db : Db) (body : PlayerBody) : Bool :=
  match (postPlayersHandler db body "new_id" 0).1 with
  | .ok _ _ => true
  | _ => false

/-- The payload `DataManager.addPlayer` builds from a candidate and sends to
`POST /players` (`image || null`, `bio || null`, stats defaulted with
`|| 0`). -/
def candToBody (c : PlayerCand) : PlayerBody :=
  { name := c.name, number := c.number, teamId := c.teamId,
    position := c.position, image := jsOrNull c.image, bio := jsOrNull c.bio,
    stats := some
      { battingAverage := some (c.battingAverage.getD 0),
        homeRuns := some (c.homeRuns.getD 0), rbi := some (c.rbi.getD 0),
        gamesPlayed := some (c.gamesPlayed.getD 0) } }

/-- A candidate with the out-of-range jersey number 150 on the existing
team `tigers`. -/
def cand150 : PlayerCand :=
  { id := none, name := some "Al Smith", number := some 150,
    teamId := some "tigers", position := some "Pitcher", image := none,
    bio := none, stats := none, battingAverage := none, homeRuns := none,
    rbi := none, gamesPlayed := none }

/-- A second team for cross-team scenarios. -/
def bearsRow : TeamRow :=
  { id := "bears", name := "Bears", color := "#3b82f6", description := none,
    createdAt := 0, updatedAt := 0 }

/-- A database with two teams where only `tigers` uses number 12. -/
def crossDb : Db :=
  { teams := [tigersRow, bearsRow], players := [jasonRow],
    config := defaultConfigRow }

/-- A candidate on team `bears` whose number 12 is in use only on the OTHER
team `tigers`. -/
def candCross : PlayerCand :=
  { id := none, name := some "Bo Cross", number := some 12,
    teamId := some "bears", position := some "Catcher", image := none,
    bio := none, stats := none, battingAverage := none, homeRuns := none,
    rbi := none, gamesPlayed := none }

/-- The team created by the unauthenticated `POST /teams` scenario. -/
def lionsRow : TeamRow :=
  { id := "team_x", name := "Lions", color := "#3b82f6",
    description := none, createdAt := 5, updatedAt := 5 }

/-- A player row with its bio replaced and its last-modified timestamp
refreshed — the row the merge of `{bio: x}` produces. -/
def bioPatched (p : PlayerRow) (x : String) (now : Nat) : PlayerRow :=
  { p with bio := some x, updatedAt := now }

/-- C2 formalized: on every database state, the client validators
(`DataManager.validatePlayer` over the mirrored collections, and
`ValidationUtils.validatePlayer` over the peer players) accept a candidate
exactly when `POST /players` accepts the payload built from it. -/
def claimC2 : Prop :=
  ∀ (db : Db) (cand : PlayerCand),
    ((dmValidatePlayer db.teams db.players cand).valid = true ↔
      serverAccepts db (candToBody cand) = true) ∧
    ((vuValidatePlayer cand db.players).valid = true ↔
      serverAccepts db (candToBody cand) = true)

/-- C3 formalized: under the all-failure network, at least one retry of
`initialize()` is scheduled, or draining every scheduled retry ends with
the persistent-error notification `apiError` emitted. (The spec claims
both; refuting this disjunction refutes each part.) -/
def claimC3 : Prop :=
  1 ≤ (runInit allFailNet dmInit).scheduled ∨
  "apiError" ∈ (drain allFailNet 10 (runInit allFailNet dmInit)).events

/-- A season whose `endDate` lies strictly before its `startDate`. -/
def badSeason : SeasonBody :=
  { year := some 2024, startDate := some "2024-06-01",
    endDate := some "2024-04-01", allStarWeekend := none }

/-- The `PUT /config` body carrying `badSeason`. -/
def badSeasonBody : ConfigBody :=
  { title := none, description := none, theme := none, season := some badSeason }

/-- The config row after the reversed-dates update is applied at time 7. -/
def cfgBadSeason : ConfigRow :=
  { defaultConfigRow with startDate := some "2024-06-01",
                          endDate := some "2024-04-01", updatedAt := 7 }

/-- C6 formalized: a `PUT /config` carrying the reversed season dates is
answered with the error envelope and leaves the stored configuration
unchanged, whatever the database state. -/
def claimC6 : Prop :=
  ∀ (db : Db) (now : Nat),
    (∃ s m c, (putConfigHandler db badSeasonBody now).1 = .err s m c) ∧
    (putConfigHandler db badSeasonBody now).2 = db

/-- A player on team `bears` wearing number 12 (legal: jasonRow wears 12 on
`tigers`, a different team). -/
def bearsPlayer : PlayerRow :=
  { id := "player_9", name := "Rex Bear", number := 12, teamId := "bears",
    position := "Catcher", imagePath := none, bio := none,
    battingAverage := 0, homeRuns := 0, rbi := 0, gamesPlayed := 0,
    createdAt := 0, updatedAt := 0 }

/-- The two-team database with the same jersey number on both teams. -/
def dbBears : Db :=
  { teams := [tigersRow, bearsRow], players := [jasonRow, bearsPlayer],
    config := defaultConfigRow }

/-- The cache mirroring `dbBears`. -/
def cacheBears : Cache :=
  { teams := dbBears.teams, players := dbBears.players }

/-- C7 formalized: for every aligned cache/database state and every cached
player, `updatePlayer(id, {bio: "x"})` succeeds and a subsequent
`getPlayer(id)` returns the record with `bio = "x"` and every other field
(timestamps included) unchanged. -/
def claimC7 : Prop :=
  ∀ (dm : Cache) (db : Db) (pid : String) (p : PlayerRow) (now : Nat),
    dm.teams = db.teams → dm.players = db.players →
    dmGetPlayer dm pid = some p →
    ∃ st2, dmUpdatePlayer dm db pid (bioUpd "x") now = .ok st2 ∧
      dmGetPlayer st2.1 pid = some { p with bio := some "x" }

/-- C8 formalized: on every well-formed cache heap, writing through any
address obtained from `getPlayers`, `getTeam`, `getPlayersByTeam` or
`getSiteConfig` (the returned reference, and for arrays also their element
references) leaves the observable cache contents unchanged. -/
def claimC8 : Prop :=
  ∀ (h : Heap) (dm : DMRefs), wfDM h dm = true →
    (∀ (tid : String) (a : Addr), getTeamRef h dm tid = some a →
      ∀ o, obsAll (h.write a o) dm = obsAll h dm) ∧
    (∀ (a : Addr),
      (a = (getPlayersRef h dm).2 ∨
       a ∈ arrElemsAt (getPlayersRef h dm).1 (getPlayersRef h dm).2) →
      ∀ o, obsAll ((getPlayersRef h dm).1.write a o) dm =
        obsAll (getPlayersRef h dm).1 dm) ∧
    (∀ (tid : String) (a : Addr),
      (a = (getPlayersByTeamRef h dm tid).2 ∨
       a ∈ arrElemsAt (getPlayersByTeamRef h dm tid).1
            (getPlayersByTeamRef h dm tid).2) →
      ∀ o, obsAll ((getPlayersByTeamRef h dm tid).1.write a o) dm =
        obsAll (getPlayersByTeamRef h dm tid).1 dm) ∧
    (∀ o, obsAll ((getSiteConfigRef h dm).1.write (getSiteConfigRef h dm).2 o) dm =
      obsAll (getSiteConfigRef h dm).1 dm)

/-- A concrete well-formed cache heap: teams array at 0 holding the tigers
object at 1, players array at 2 holding the jason object at 3, config
object at 4. -/
def exHeap : Heap :=
  { next := 5,
    mem := [(0, .arr [1]), (1, .team tigersRow), (2, .arr [3]),
            (3, .player jasonRow), (4, .config defaultConfigRow)] }

/-- The cache references into `exHeap`. -/
def exRefs : DMRefs := { teamsA := 0, playersA := 2, configA := 4 }

/-- The tigers object after a caller mutates the value `getTeam` returned. -/
def hackedTigers : TeamRow := { tigersRow with name := "Hacked" }


-- ===== Helper lemmas =====

theorem find?_enumFrom_set {α : Type} (p : α → Bool) :
    ∀ (l : List α) (k i : Nat) (a : α),
      (l.enumFrom k).find? (fun e => p e.2) = some (i, a) →
      k ≤ i ∧ ∀ b, p b = true → (l.set (i - k) b).find? p = some b := by
  intro l
  induction l with
  | nil => intro k i a h; simp at h
  | cons c t ih =>
    intro k i a h
    rw [List.enumFrom_cons] at h
    by_cases hc : p c = true
    · rw [List.find?_cons_of_pos _ (by simpa using hc)] at h
      have hki : k = i ∧ c = a := by
        have h2 := h
        simp only [Option.some.injEq, Prod.mk.injEq] at h2
        exact h2
      obtain ⟨rfl, rfl⟩ := hki
      refine ⟨Nat.le_refl _, fun b hb => ?_⟩
      rw [Nat.sub_self]
      exact List.find?_cons_of_pos _ hb
    · rw [List.find?_cons_of_neg _ (by simpa using hc)] at h
      obtain ⟨hk, hrest⟩ := ih (k + 1) i a h
      refine ⟨Nat.le_of_succ_le hk, fun b hb => ?_⟩
      have hik : i - k = (i - (k + 1)) + 1 := by omega
      rw [hik, List.set_cons_succ, List.find?_cons_of_neg _ (by simpa using hc)]
      exact hrest b hb

theorem readCells_replace_ne (mem : List (Addr × Obj)) (a : Addr) (o : Obj)
    (b : Addr) (hne : b ≠ a) :
    readCells (mem.map (fun e => if e.1 = a then (a, o) else e)) b =
      readCells mem b := by
  induction mem with
  | nil => rfl
  | cons e es ih =>
    obtain ⟨k, v⟩ := e
    rw [List.map_cons]
    show readCells ((if k = a then (a, o) else (k, v)) :: _) b = _
    by_cases he : k = a
    · rw [if_pos he]
      have hbk : b ≠ k := fun hh => hne (hh.trans he)
      show (if b = a then some o else _) = (if b = k then some v else _)
      rw [if_neg hne, if_neg hbk]
      exact ih
    · rw [if_neg he]
      show (if b = k then some v else _) = (if b = k then some v else _)
      by_cases hbk : b = k
      · rw [if_pos hbk, if_pos hbk]
      · rw [if_neg hbk, if_neg hbk]
        exact ih

theorem readCells_replace_self (mem : List (Addr × Obj)) (a : Addr) (o : Obj)
    (hsome : (readCells mem a).isSome = true) :
    readCells (mem.map (fun e => if e.1 = a then (a, o) else e)) a = some o := by
  induction mem with
  | nil => simp [readCells] at hsome
  | cons e es ih =>
    obtain ⟨k, v⟩ := e
    rw [List.map_cons]
    show readCells ((if k = a then (a, o) else (k, v)) :: _) a = some o
    by_cases he : k = a
    · rw [if_pos he]
      show (if a = a then some o else _) = some o
      rw [if_pos rfl]
    · rw [if_neg he]
      have hak : a ≠ k := fun hh => he hh.symm
      show (if a = k then some v else _) = some o
      rw [if_neg hak]
      apply ih
      have hstep : readCells ((k, v) :: es) a = readCells es a := by
        show (if a = k then some v else _) = _
        rw [if_neg hak]
      rw [hstep] at hsome
      exact hsome

theorem read_write_ne (h : Heap) (a : Addr) (o : Obj) (b : Addr) (hne : b ≠ a) :
    (h.write a o).read b = h.read b :=
  readCells_replace_ne h.mem a o b hne

theorem read_write_self (h : Heap) (a : Addr) (o : Obj)
    (hsome : (h.read a).isSome = true) :
    (h.write a o).read a = some o :=
  readCells_replace_self h.mem a o hsome

theorem readCells_key_lt (mem : List (Addr × Obj)) (n : Nat)
    (hall : ∀ e ∈ mem, e.1 < n) (b : Addr) (v : Obj)
    (hb : readCells mem b = some v) : b < n := by
  induction mem with
  | nil => simp [readCells] at hb
  | cons e es ih =>
    obtain ⟨k, w⟩ := e
    by_cases hbk : b = k
    · subst hbk
      exact hall (b, w) (List.mem_cons_self (b, w) es)
    · have hstep : readCells ((k, w) :: es) b = readCells es b := by
        show (if b = k then some w else _) = _
        rw [if_neg hbk]
      rw [hstep] at hb
      exact ih (fun e he => hall e (List.mem_cons_of_mem _ he)) hb

theorem read_key_lt (h : Heap) (hall : ∀ e ∈ h.mem, e.1 < h.next)
    (b : Addr) (v : Obj) (hb : h.read b = some v) : b < h.next :=
  readCells_key_lt h.mem h.next hall b v hb

theorem map_replace_eq_of_no_key (mem : List (Addr × Obj)) (a : Addr) (o : Obj)
    (hno : ∀ e ∈ mem, e.1 ≠ a) :
    mem.map (fun e => if e.1 = a then (a, o) else e) = mem := by
  induction mem with
  | nil => rfl
  | cons e es ih =>
    rw [List.map_cons, if_neg (hno e (List.mem_cons_self e es)),
      ih (fun e2 he2 => hno e2 (List.mem_cons_of_mem _ he2))]

theorem read_alloc_write (h : Heap) (o o2 : Obj) (b : Addr)
    (hall : ∀ e ∈ h.mem, e.1 < h.next) (hb : b < h.next) :
    (((h.alloc o).1).write h.next o2).read b = h.read b := by
  show readCells (((h.next, o) :: h.mem).map
    (fun e => if e.1 = h.next then (h.next, o2) else e)) b = h.read b
  rw [List.map_cons]
  show readCells ((if h.next = h.next then (h.next, o2) else (h.next, o)) :: _) b = _
  rw [if_pos rfl, map_replace_eq_of_no_key h.mem h.next o2
    (fun e he => Nat.ne_of_lt (hall e he))]
  show (if b = h.next then some o2 else h.read b) = h.read b
  rw [if_neg (Nat.ne_of_lt hb)]

theorem wfDM_parts (h : Heap) (dm : DMRefs) (hwf : wfDM h dm = true) :
    (∀ e ∈ h.mem, e.1 < h.next) ∧
    h.read dm.teamsA = some (.arr (teamElems h dm)) ∧
    (∀ a ∈ teamElems h dm, ∃ t, h.read a = some (.team t)) ∧
    h.read dm.playersA = some (.arr (playerElems h dm)) ∧
    (∀ a ∈ playerElems h dm, ∃ p, h.read a = some (.player p)) ∧
    (∃ c, h.read dm.configA = some (.config c)) := by
  unfold wfDM at hwf
  simp only [Bool.and_eq_true] at hwf
  obtain ⟨⟨⟨hall, hteams⟩, hplayers⟩, hconfig⟩ := hwf
  have hallp : ∀ e ∈ h.mem, e.1 < h.next := by
    intro e he
    have h2 := List.all_eq_true.mp hall e he
    simpa using h2
  refine ⟨hallp, ?_, ?_, ?_, ?_, ?_⟩
  · cases hr : h.read dm.teamsA with
    | none => rw [hr] at hteams; exact absurd hteams (by simp)
    | some obj =>
      cases obj with
      | arr l => rw [teamElems, hr]
      | team t => rw [hr] at hteams; exact absurd hteams (by simp)
      | player p => rw [hr] at hteams; exact absurd hteams (by simp)
      | config c => rw [hr] at hteams; exact absurd hteams (by simp)
  · intro a ha
    cases hr : h.read dm.teamsA with
    | none => rw [teamElems, hr] at ha; exact absurd ha (by simp)
    | some obj =>
      cases obj with
      | arr l =>
        rw [hr] at hteams
        rw [teamElems, hr] at ha
        have h3 := List.all_eq_true.mp hteams a ha
        cases hra : h.read a with
        | none => rw [hra] at h3; exact absurd h3 (by simp)
        | some obj2 =>
          cases obj2 with
          | team t => exact ⟨t, rfl⟩
          | arr l2 => rw [hra] at h3; exact absurd h3 (by simp)
          | player p => rw [hra] at h3; exact absurd h3 (by simp)
          | config c => rw [hra] at h3; exact absurd h3 (by simp)
      | team t => rw [teamElems, hr] at ha; exact absurd ha (by simp)
      | player p => rw [teamElems, hr] at ha; exact absurd ha (by simp)
      | config c => rw [teamElems, hr] at ha; exact absurd ha (by simp)
  · cases hr : h.read dm.playersA with
    | none => rw [hr] at hplayers; exact absurd hplayers (by simp)
    | some obj =>
      cases obj with
      | arr l => rw [playerElems, hr]
      | team t => rw [hr] at hplayers; exact absurd hplayers (by simp)
      | player p => rw [hr] at hplayers; exact absurd hplayers (by simp)
      | config c => rw [hr] at hplayers; exact absurd hplayers (by simp)
  · intro a ha
    cases hr : h.read dm.playersA with
    | none => rw [playerElems, hr] at ha; exact absurd ha (by simp)
    | some obj =>
      cases obj with
      | arr l =>
        rw [hr] at hplayers
        rw [playerElems, hr] at ha
        have h3 := List.all_eq_true.mp hplayers a ha
        cases hra : h.read a with
        | none => rw [hra] at h3; exact absurd h3 (by simp)
        | some obj2 =>
          cases obj2 with
          | player p => exact ⟨p, rfl⟩
          | arr l2 => rw [hra] at h3; exact absurd h3 (by simp)
          | team t => rw [hra] at h3; exact absurd h3 (by simp)
          | config c => rw [hra] at h3; exact absurd h3 (by simp)
      | team t => rw [playerElems, hr] at ha; exact absurd ha (by simp)
      | player p => rw [playerElems, hr] at ha; exact absurd ha (by simp)
      | config c => rw [playerElems, hr] at ha; exact absurd ha (by simp)
  · cases hr : h.read dm.configA with
    | none => rw [hr] at hconfig; exact absurd hconfig (by simp)
    | some obj =>
      cases obj with
      | config c => exact ⟨c, rfl⟩
      | arr l => rw [hr] at hconfig; exact absurd hconfig (by simp)
      | team t => rw [hr] at hconfig; exact absurd hconfig (by simp)
      | player p => rw [hr] at hconfig; exact absurd hconfig (by simp)

theorem obsAll_eq_of_reads (h h2 : Heap) (dm : DMRefs) (hwf : wfDM h dm = true)
    (hpres : ∀ b v, h.read b = some v → h2.read b = some v) :
    obsAll h2 dm = obsAll h dm := by
  obtain ⟨hall, hteq, htel, hpeq, hpel, c, hceq⟩ := wfDM_parts h dm hwf
  have hte : teamElems h2 dm = teamElems h dm := by
    rw [teamElems, hpres _ _ hteq]
  have hpe : playerElems h2 dm = playerElems h dm := by
    rw [playerElems, hpres _ _ hpeq]
  have hm1 : (teamElems h dm).map h2.read = (teamElems h dm).map h.read := by
    apply List.map_congr_left
    intro a ha
    obtain ⟨t, hat⟩ := htel a ha
    rw [hat, hpres _ _ hat]
  have hm2 : (playerElems h dm).map h2.read = (playerElems h dm).map h.read := by
    apply List.map_congr_left
    intro a ha
    obtain ⟨p, hap⟩ := hpel a ha
    rw [hap, hpres _ _ hap]
  unfold obsAll
  rw [hte, hpe, hpres _ _ hceq, hceq, hm1, hm2]

theorem reads_preserved_alloc_write (h : Heap) (dm : DMRefs)
    (hwf : wfDM h dm = true) (o o2 : Obj) :
    ∀ b v, h.read b = some v → (((h.alloc o).1).write h.next o2).read b = some v := by
  obtain ⟨hall, _⟩ := wfDM_parts h dm hwf
  intro b v hb
  rw [read_alloc_write h o o2 b hall (read_key_lt h hall b v hb)]
  exact hb

-- ===== Claim theorems =====

/-- C1: the spec requires every mutating operation — including POST, PUT and
DELETE on /teams — to answer 401 UNAUTHORIZED without a valid bearer token.
The code protects the player and config mutations but mounts the team
routes with no auth check at all: with an empty token registry and no
Authorization header, POST /teams creates the team and answers 201, and
DELETE /teams/:id deletes it, while POST /players and PUT /config correctly
answer 401 UNAUTHORIZED. This exhibits the code bug. -/
theorem teams_mutations_skip_auth :
    (postTeamsEndpoint [] none 5 defaultDb
        { name := some "Lions", color := none, description := none } "team_x").1 =
      .ok 201 (.team lionsRow) ∧
    (postTeamsEndpoint [] none 5 defaultDb
        { name := some "Lions", color := none, description := none } "team_x").2.teams =
      [tigersRow, lionsRow] ∧
    (deleteTeamsEndpoint [] none 5 { defaultDb with players := [] } "tigers").1 =
      .okMsg 200 "Team deleted successfully" ∧
    (postPlayersEndpoint [] none 5 defaultDb
        { name := some "A", number := some 9, teamId := some "tigers",
          position := some "P", image := none, bio := none, stats := none } "pid").1 =
      .err 401 "Missing token" "UNAUTHORIZED" ∧
    (putConfigEndpoint [] none 5 defaultDb badSeasonBody).1 =
      .err 401 "Missing token" "UNAUTHORIZED" := by
  exact ⟨rfl, rfl, rfl, rfl, rfl⟩

/-- C2 counterexample: the client/server validators do NOT accept the same
inputs. The candidate with jersey number 150 on the existing team `tigers`
is rejected by both client validators (range 1..99) yet accepted by
`POST /players`, which never checks the range. -/
theorem claimC2_false : ¬ claimC2 := by
  intro h
  exact absurd ((h defaultDb cand150).1.mpr (by decide)) (by decide)

/-- C2 as amended: the rule sets differ. Number 150 on an existing team is
rejected client-side but accepted by the server; a number already worn on a
DIFFERENT team is rejected client-side (the client duplicate scan ignores
teams) but accepted by the server (which checks only the destination
team). -/
theorem validators_diverge :
    ((dmValidatePlayer defaultDb.teams defaultDb.players cand150).valid = false ∧
     (vuValidatePlayer cand150 defaultDb.players).valid = false ∧
     serverAccepts defaultDb (candToBody cand150) = true) ∧
    ((dmValidatePlayer crossDb.teams crossDb.players candCross).valid = false ∧
     (vuValidatePlayer candCross crossDb.players).valid = false ∧
     serverAccepts crossDb (candToBody candCross) = true) := by
  refine ⟨⟨by decide, by decide, by decide⟩, by decide, by decide, by decide⟩

/-- C3 counterexample: under the all-failure network, running
`initialize()` from the fresh state schedules no retry at all and never
emits the `apiError` notification, because every load swallows its own
fetch failure — so the retry/backoff path of the claim never runs. -/
theorem claimC3_false : ¬ claimC3 := by
  intro h
  rcases h with h | h
  · exact absurd h (by decide)
  · exact absurd h (by decide)

/-- C3 as amended: with every fetch failing, `initialize()` completes in a
single pass — config falls back to the default, teams and players to empty
lists, `retryCount` is reset to 0, no retry is scheduled and no event is
emitted; and the awaited load sequence can never surface an error (each
load catches its own), which is why `handleApiError` is unreachable from
load failures. -/
theorem init_all_fail_single_pass :
    (runInit allFailNet dmInit =
      { siteConfig := some dmDefaultSiteConfig, teams := [], players := [],
        isLoading := false, retryCount := 0, maxRetries := 3, events := [],
        scheduled := 0 }) ∧
    (∀ (net : Network) (st : DMState), ∃ st2, loadSeq net st = .ok st2) := by
  constructor
  · rfl
  · intro net st
    cases hc : net.configResp <;> cases ht : net.teamsResp <;> cases hp : net.playersResp <;>
      · simp only [loadSeq, loadSiteConfig, loadTeams, loadPlayers, hc, ht, hp,
          Bind.bind, Except.bind]
        exact ⟨_, rfl⟩

/-- C4: creating a player whose (teamId, number) pair collides with a
stored player is rejected with DUPLICATE_NUMBER, the message names the
offending number, and the store is unchanged. -/
theorem create_duplicate_number_rejected
    (db : Db) (body : PlayerBody) (p1 : PlayerRow) (nm ps : String)
    (newId : String) (now : Nat)
    (hnm : body.name = some nm) (hnm0 : nm ≠ "")
    (hps : body.position = some ps) (hps0 : ps ≠ "")
    (hnum : body.number = some p1.number)
    (htid : body.teamId = some p1.teamId)
    (hmem : p1 ∈ db.players)
    (hn0 : p1.number ≠ 0)
    (htid0 : p1.teamId ≠ "")
    (hteam : ∃ t ∈ db.teams, t.id = p1.teamId) :
    postPlayersHandler db body newId now =
      (.err 400 ("Player number " ++ toString p1.number ++ " already exists in this team")
        "DUPLICATE_NUMBER", db) := by
  obtain ⟨t, htmem, htid2⟩ := hteam
  have hex : ¬ (∀ x ∈ db.teams, ¬ x.id = p1.teamId) := fun hall => hall t htmem htid2
  have hdup : (db.players.find? (fun p => p.teamId == p1.teamId && p.number == p1.number)).isSome := by
    rw [List.find?_isSome]
    exact ⟨p1, hmem, by simp⟩
  simp [postPlayersHandler, hnm, hps, hnum, htid, jsTruthyStr, jsTruthyInt,
    hnm0, hps0, hn0, htid0, hex, hdup, Option.isNone_iff_eq_none]

/-- C4 witness: Jason Miller wears 12 on tigers, so creating another
number-12 tigers player fails with DUPLICATE_NUMBER and leaves the
database untouched. -/
theorem create_duplicate_number_rejected_witness :
    postPlayersHandler defaultDb
        { name := some "Al", number := some 12, teamId := some "tigers",
          position := some "P", image := none, bio := none, stats := none }
        "pid" 9 =
      (.err 400 "Player number 12 already exists in this team" "DUPLICATE_NUMBER",
       defaultDb) := by
  have h := create_duplicate_number_rejected defaultDb
    { name := some "Al", number := some 12, teamId := some "tigers",
      position := some "P", image := none, bio := none, stats := none }
    jasonRow "Al" "P" "pid" 9 rfl (by decide) rfl (by decide) rfl rfl
    (by decide) (by decide) (by decide) ⟨tigersRow, by decide, rfl⟩
  exact h

/-- C5: deleting a team with referencing players fails with
TEAM_HAS_PLAYERS carrying the referencing count and leaves the store
unchanged; deleting the same team once its referencing players are gone
succeeds and removes exactly that team. -/
theorem delete_team_has_players
    (db : Db) (tid : String)
    (hteam : (db.teams.find? (fun t => t.id == tid)).isSome = true) :
    (0 < (db.players.filter (fun p => p.teamId == tid)).length →
      deleteTeamsHandler db tid =
        (.err 400 ("Cannot delete team with " ++
            toString (db.players.filter (fun p => p.teamId == tid)).length ++
            " players. Move or delete players first.") "TEAM_HAS_PLAYERS", db)) ∧
    deleteTeamsHandler
        { db with players := db.players.filter (fun p => p.teamId != tid) } tid =
      (.okMsg 200 "Team deleted successfully",
       { teams := db.teams.filter (fun t => t.id != tid),
         players := db.players.filter (fun p => p.teamId != tid),
         config := db.config }) := by
  obtain ⟨t0, ht0⟩ := Option.isSome_iff_exists.mp hteam
  constructor
  · intro hpos
    simp [deleteTeamsHandler, ht0, hpos]
  · have hempty : ((db.players.filter (fun p => p.teamId != tid)).filter
        (fun p => p.teamId == tid)) = [] := by
      rw [List.filter_filter]
      apply List.filter_eq_nil_iff.mpr
      intro a _
      simp
    simp [deleteTeamsHandler, ht0, hempty]

/-- C5 witness: deleting tigers while Jason Miller references it answers
TEAM_HAS_PLAYERS with count 1 and changes nothing; with its players
removed the delete succeeds. -/
theorem delete_team_has_players_witness :
    deleteTeamsHandler defaultDb "tigers" =
      (.err 400 "Cannot delete team with 1 players. Move or delete players first."
        "TEAM_HAS_PLAYERS", defaultDb) ∧
    deleteTeamsHandler
        { defaultDb with players := defaultDb.players.filter (fun p => p.teamId != "tigers") }
        "tigers" =
      (.okMsg 200 "Team deleted successfully",
       { teams := [], players := [], config := defaultConfigRow }) := by
  have h := delete_team_has_players defaultDb "tigers" (by decide)
  exact ⟨h.1 (by decide), by simpa using h.2⟩

/-- C6 counterexample: the authorized `PUT /config` with endDate before
startDate is NOT rejected and the stored configuration IS modified — the
handler performs no validation. -/
theorem claimC6_false : ¬ claimC6 := by
  intro h
  obtain ⟨⟨s, m, c, habs⟩, -⟩ := h defaultDb 7
  rw [show (putConfigHandler defaultDb badSeasonBody 7).1 =
      .ok 200 (.config cfgBadSeason) from rfl] at habs
  exact Resp.noConfusion habs

/-- C6 as amended: the Validation Engine's season rule does flag the
reversed dates ("End date must be after start date"), but `PUT /config`
never invokes it: the request succeeds with 200 and the reversed dates are
stored. -/
theorem season_violation_flagged_but_stored :
    vuValidateSeason badSeason = ["End date must be after start date"] ∧
    putConfigHandler defaultDb badSeasonBody 7 =
      (.ok 200 (.config cfgBadSeason), { defaultDb with config := cfgBadSeason }) := by
  exact ⟨by decide, rfl⟩

/-- C7 counterexample: in the aligned cache/database state where tigers and
bears each have a number-12 player, `updatePlayer("player_1", {bio: "x"})`
does not succeed — the client validator sees the other team's number 12 as
a duplicate and throws before any network call. -/
theorem claimC7_false : ¬ claimC7 := by
  intro h
  obtain ⟨st2, heq, -⟩ := h cacheBears dbBears "player_1" jasonRow 5 rfl rfl (by decide)
  rw [show dmUpdatePlayer cacheBears dbBears "player_1" (bioUpd "x") 5 =
      .error "Player validation failed: Player number already exists" from rfl] at heq
  exact Except.noConfusion heq

/-- C7 as amended: when the merged record passes the client validation
(in particular no other cached player wears the same number on any team),
the database row matches the cached row, and no other database row holds
the same (team, number) pair, then `updatePlayer(id, {bio: x})` succeeds;
the cache, the database and the returned echo all carry the row with
`bio = x`, the last-modified timestamp refreshed to the write time, and
every other field unchanged. -/
theorem updatePlayer_bio_roundtrip
    (dm : Cache) (db : Db) (pid : String) (p : PlayerRow) (i : Nat) (x : String)
    (now : Nat)
    (hfind : dm.players.enum.find? (fun e => e.2.id == pid) = some (i, p))
    (hvalid : (dmValidatePlayer dm.teams dm.players (mergeCand p (bioUpd x))).valid = true)
    (hdb : db.players.find? (fun q => q.id == pid) = some p)
    (hnodup : db.players.any
      (fun q => q.id != pid && q.teamId == p.teamId && q.number == p.number) = false) :
    dmUpdatePlayer dm db pid (bioUpd x) now =
      .ok ({ dm with players := dm.players.set i (bioPatched p x now) },
           { db with players := db.players.map (fun q => if q.id == pid then bioPatched p x now else q) },
           bioPatched p x now) ∧
    dmGetPlayer { dm with players := dm.players.set i (bioPatched p x now) } pid =
      some (bioPatched p x now) := by
  have hmerge : mergePlayerRow p
      { name := none, number := none, teamId := none, position := none,
        image := none, bio := some x,
        stats := some { battingAverage := none, homeRuns := none, rbi := none,
                        gamesPlayed := none } } now =
      bioPatched p x now := by
    simp [mergePlayerRow, bioPatched, Option.orElse]
  have hnP : ¬ ∃ q ∈ db.players, (¬ q.id = pid ∧ q.teamId = p.teamId) ∧ q.number = p.number := by
    rw [List.any_eq_false] at hnodup
    rintro ⟨q, hq, ⟨hid, hteam⟩, hnum⟩
    exact hnodup q hq (by simp [hid, hteam, hnum])
  have hvalid2 := hvalid
  simp only [bioUpd] at hvalid2
  constructor
  · simp [dmUpdatePlayer, bioUpd, hfind, hvalid2, putPlayersHandler, hdb, hmerge,
      dbUpdatePlayer, hnP, bioPatched, mergePlayerRow, Option.orElse]
  · have hpid : (p.id == pid) = true := by
      have h2 := List.find?_some hdb
      simpa using h2
    have hset := (find?_enumFrom_set (fun q => q.id == pid) dm.players 0 i p
      (by simpa using hfind)).2
    have h3 := hset (bioPatched p x now) (by simpa [bioPatched] using hpid)
    simpa [dmGetPlayer] using h3

/-- C7 witness: on the single-team default state, updating Jason Miller's
bio to "x" succeeds and the cached, stored and echoed rows agree, with only
bio and the timestamp changed. -/
theorem updatePlayer_bio_roundtrip_witness :
    dmUpdatePlayer { teams := [tigersRow], players := [jasonRow] } defaultDb
        "player_1" (bioUpd "x") 9 =
      .ok ({ teams := [tigersRow], players := [bioPatched jasonRow "x" 9] },
           { defaultDb with players := [bioPatched jasonRow "x" 9] },
           bioPatched jasonRow "x" 9) := by
  have h := (updatePlayer_bio_roundtrip { teams := [tigersRow], players := [jasonRow] }
    defaultDb "player_1" jasonRow 0 "x" 9 rfl (by decide) rfl (by decide)).1
  simpa using h

/-- C8 counterexample: `getTeam` hands back the cache's own team object, so
mutating the returned value IS visible to subsequent reads. On the concrete
well-formed heap, `getTeam("tigers")` returns address 1 — an element of the
internal teams array — and writing the renamed object there changes the
observable cache contents. -/
theorem claimC8_false : ¬ claimC8 := by
  intro hcl
  have h1 := (hcl exHeap exRefs (by decide)).1 "tigers" 1 (by decide) (.team hackedTigers)
  exact absurd h1 (by decide)

/-- C8 as amended: only the CONTAINERS are copied. The array returned by
`getPlayers` (and by `getPlayersByTeam`) and the object returned by
`getSiteConfig` are freshly allocated, and overwriting them leaves the
observable cache unchanged — but the elements of the returned players array
are the internal player references, and `getTeam` returns the internal team
reference itself, through which a write is visible to subsequent reads. -/
theorem cache_reads_share_objects (h : Heap) (dm : DMRefs)
    (hwf : wfDM h dm = true) :
    ((getPlayersRef h dm).2 = h.next ∧
     (getPlayersRef h dm).2 ∉ playerElems h dm ∧
     arrElemsAt (getPlayersRef h dm).1 (getPlayersRef h dm).2 = playerElems h dm ∧
     (∀ o, obsAll ((getPlayersRef h dm).1.write (getPlayersRef h dm).2 o) dm = obsAll h dm)) ∧
    (∀ tid, (getPlayersByTeamRef h dm tid).2 = h.next ∧
     (∀ o, obsAll ((getPlayersByTeamRef h dm tid).1.write (getPlayersByTeamRef h dm tid).2 o) dm =
       obsAll h dm)) ∧
    (∀ o, obsAll ((getSiteConfigRef h dm).1.write (getSiteConfigRef h dm).2 o) dm = obsAll h dm) ∧
    (∀ tid a, getTeamRef h dm tid = some a → a ∈ teamElems h dm ∧
      ∀ t2, some (Obj.team t2) ∈ (obsAll (h.write a (.team t2)) dm).1) := by
  obtain ⟨hall, hteq, htel, hpeq, hpel, c, hceq⟩ := wfDM_parts h dm hwf
  refine ⟨⟨rfl, ?_, ?_, ?_⟩, ?_, ?_, ?_⟩
  · intro hmem
    obtain ⟨p, hp⟩ := hpel _ hmem
    exact absurd rfl (Nat.ne_of_lt (read_key_lt h hall _ _ hp))
  · show arrElemsAt (h.alloc (.arr (playerElems h dm))).1 h.next = playerElems h dm
    rw [arrElemsAt]
    show (match (if h.next = h.next then some (Obj.arr (playerElems h dm)) else _) with
      | some (.arr l) => l
      | _ => ([] : List Addr)) = playerElems h dm
    rw [if_pos rfl]
  · intro o
    exact obsAll_eq_of_reads h _ dm hwf (reads_preserved_alloc_write h dm hwf _ o)
  · intro tid
    refine ⟨rfl, fun o => ?_⟩
    exact obsAll_eq_of_reads h _ dm hwf (reads_preserved_alloc_write h dm hwf _ o)
  · intro o
    have hrw : getSiteConfigRef h dm = h.alloc (.config c) := by
      rw [getSiteConfigRef, hceq]
    rw [hrw]
    exact obsAll_eq_of_reads h _ dm hwf (reads_preserved_alloc_write h dm hwf _ o)
  · intro tid a hfind
    have hmem : a ∈ teamElems h dm := List.mem_of_find?_eq_some hfind
    obtain ⟨t, hat⟩ := htel a hmem
    refine ⟨hmem, fun t2 => ?_⟩
    have hne : dm.teamsA ≠ a := by
      intro hh
      rw [hh, hat] at hteq
      exact Obj.noConfusion (Option.some.inj hteq)
    have hte : teamElems (h.write a (.team t2)) dm = teamElems h dm := by
      rw [teamElems, read_write_ne h a (.team t2) dm.teamsA hne, hteq]
    have hsome : (h.read a).isSome = true := by rw [hat]; rfl
    have hread : (h.write a (.team t2)).read a = some (.team t2) :=
      read_write_self h a (.team t2) hsome
    show some (Obj.team t2) ∈ (teamElems (h.write a (.team t2)) dm).map (h.write a (.team t2)).read
    rw [hte]
    exact List.mem_map.mpr ⟨a, hmem, hread⟩

/-- C8 witness: on the concrete heap, `getPlayers` allocates the fresh
address 5, clearing that fresh array leaves the observable cache intact,
and `getTeam("tigers")` returns address 1, which belongs to the internal
teams array. -/
theorem cache_reads_share_objects_witness :
    (getPlayersRef exHeap exRefs).2 = 5 ∧
    obsAll ((getPlayersRef exHeap exRefs).1.write 5 (.arr [])) exRefs = obsAll exHeap exRefs ∧
    (1 ∈ teamElems exHeap exRefs) := by
  have h := cache_reads_share_objects exHeap exRefs (by decide)
  refine ⟨h.1.1, ?_, ((h.2.2.2) "tigers" 1 (by decide)).1⟩
  have h2 := h.1.2.2.2 (.arr [])
  rw [h.1.1] at h2
  exact h2

/-- C9: the Validation Engine is specified never to throw, but
`validateTeam` applied to a candidate with a missing name against a
non-empty peer collection evaluates `team.name.toLowerCase()` inside the
duplicate scan and throws a TypeError; against an empty collection it
returns the structured invalid result the contract promises. This
exhibits the code bug. -/
theorem validateTeam_missing_name_throws :
    vuValidateTeam { id := none, name := none, color := none, description := none }
        [tigersRow] =
      .error (.typeError "Cannot read properties of undefined (reading toLowerCase)") ∧
    vuValidateTeam { id := none, name := none, color := none, description := none } [] =
      .ok { valid := false, errors := ["Team name is required"], warnings := [] } := by
  exact ⟨rfl, rfl⟩

/-- C10: an update that moves a player to another team while leaving the
number field absent skips the application-level duplicate check, so a
collision in the destination team surfaces as the storage layer's UNIQUE
constraint failure: a 500 with code PLAYER_UPDATE_ERROR, not
DUPLICATE_NUMBER, and the store is unchanged. -/
theorem update_team_change_hits_constraint
    (db : Db) (p q : PlayerRow) (pid t2 : String) (now : Nat)
    (hfind : db.players.find? (fun r => r.id == pid) = some p)
    (hq : q ∈ db.players) (hqid : q.id ≠ pid)
    (hqteam : q.teamId = t2) (hqnum : q.number = p.number) :
    putPlayersHandler db pid
        { name := none, number := none, teamId := some t2, position := none,
          image := none, bio := none, stats := none } now =
      (.err 500 "SQLITE_CONSTRAINT: UNIQUE constraint failed: players.team_id, players.number"
        "PLAYER_UPDATE_ERROR", db) := by
  have hany : db.players.any
      (fun r => r.id != pid && r.teamId == t2 && r.number == p.number) = true := by
    rw [List.any_eq_true]
    exact ⟨q, hq, by simp [hqid, hqteam, hqnum]⟩
  simp [putPlayersHandler, hfind, mergePlayerRow, dbUpdatePlayer, hany]

/-- C10 witness: moving Jason Miller (number 12, tigers) onto bears — where
Rex Bear already wears 12 — with a body that carries only teamId answers
500 PLAYER_UPDATE_ERROR and leaves the database unchanged. -/
theorem update_team_change_hits_constraint_witness :
    putPlayersHandler dbBears "player_1"
        { name := none, number := none, teamId := some "bears", position := none,
          image := none, bio := none, stats := none } 9 =
      (.err 500 "SQLITE_CONSTRAINT: UNIQUE constraint failed: players.team_id, players.number"
        "PLAYER_UPDATE_ERROR", dbBears) := by
  exact update_team_change_hits_constraint dbBears jasonRow bearsPlayer "player_1" "bears" 9
    (by decide) (by decide) (by decide) rfl rfl

end TeamSite
